import Mathlib

/-!
Verification development for the order-parsing pipeline
(`schemas.py`, `validation.py`, `agent.py`).

Shallow embedding conventions:
* Python JSON values (the output of `json.loads`) are modelled by `JVal`;
  Python dicts by association lists `PyDict` (JSON objects have unique keys).
* Raw order records are `List Char` (Python `str`).
* Python floats are modelled by `ℚ`; counters by `Nat`.
* Fallible Python code (pydantic `ValidationError`, `AttributeError`,
  `TypeError`) is modelled by `Except String`.
* The LLM collaborator is opaque: a call outcome is
  `Except String (Option JVal)` — `.error e` models the invocation raising,
  `.ok d` models a textual response whose `parse_json_response` result is `d`
  (`none` = the response is not parseable as JSON).
* `datetime` timestamp fields (`failed_at`, `fetched_at`), whose values come
  from the wall clock and appear in no claim, are omitted from the records.
-/

/-- A Python JSON value, as returned by `json.loads`. -/
inductive JVal where
  | null : JVal
  | bool : Bool → JVal
  | num : ℚ → JVal
  | str : String → JVal
  | arr : List JVal → JVal
  | obj : List (String × JVal) → JVal
  deriving Repr

/-- A Python dict with string keys, e.g. one parsed-order record. -/
abbrev PyDict := List (String × JVal)

/-- Python dict `lookup`: first binding of the key (JSON objects built by
`json.loads` have unique keys, so first-wins equals Python's last-wins). -/
def pyLookup (d : PyDict) (k : String) : Option JVal :=
  match d with
  | [] => none
  | (k', v) :: rest => if k' = k then some v else pyLookup rest k

/-- Python `d.get(k, dflt)`. -/
def pyGetD (d : PyDict) (k : String) (dflt : JVal) : JVal :=
  (pyLookup d k).getD dflt

/-- Python `d.get(k)` — a missing key and a stored JSON `null` both give
Python `None`, i.e. `JVal.null`. -/
def pyGet (d : PyDict) (k : String) : JVal :=
  pyGetD d k JVal.null

mutual

/-- Python `==` on JSON values: `True == 1`, `1 == 1.0`, recursive on
lists; dict equality compares key sets and values (order-insensitive;
duplicate keys do not occur in values produced by `json.loads`). -/
def pyEq : JVal → JVal → Bool
  | .null, .null => true
  | .bool a, .bool b => a = b
  | .bool a, .num q => (if a then (1 : ℚ) else 0) = q
  | .num q, .bool b => q = (if b then (1 : ℚ) else 0)
  | .num a, .num b => a = b
  | .str a, .str b => a = b
  | .arr a, .arr b => pyEqList a b
  | .obj a, .obj b => a.length = b.length && pyEqFields a b
  | _, _ => false

/-- Pointwise Python `==` on two JSON arrays. -/
def pyEqList : List JVal → List JVal → Bool
  | [], [] => true
  | a :: as, b :: bs => pyEq a b && pyEqList as bs
  | _, _ => false

/-- Every binding of the first object matches a binding of the second. -/
def pyEqFields : List (String × JVal) → List (String × JVal) → Bool
  | [], _ => true
  | (k, v) :: rest, b =>
    (match pyLookup b k with
     | some w => pyEq v w
     | none => false) && pyEqFields rest b

end

/-- Sequential effectful map, the order Python evaluates a loop or
comprehension that may raise. -/
def mapMExcept (f : α → Except String β) : List α → Except String (List β)
  | [] => .ok []
  | a :: as => do
    let b ← f a
    let bs ← mapMExcept f as
    .ok (b :: bs)

/-! ## schemas.py -/

/-- `OrderItem`: single item within an order (`schemas.py`). -/
structure OrderItem where
  name : String
  rating : ℚ
  deriving Repr, DecidableEq

/-- `Order`: full parsed order with all fields (`schemas.py`). -/
structure Order where
  orderId : String
  buyer : String
  city : String
  state : String
  total : ℚ
  items : List OrderItem
  returned : Bool
  deriving Repr, DecidableEq

/-- The failure categories accepted by `DeadLetterQueue.add_record_failure`'s
signature: `Literal["mismatch", "dropped", "hallucinated"]`. -/
inductive FailureKind where
  | mismatch : FailureKind
  | hallucinated : FailureKind
  | dropped : FailureKind
  deriving Repr, DecidableEq

/-- `FailedRecord` (`schemas.py`): an individual order that failed semantic
validation. Its `failureType` field is declared
`Literal["mismatch", "hallucinated"]` — pydantic enforces that set at
construction (see `mkFailedRecord`), so a well-typed value here is one
pydantic accepted. -/
structure FailedRecord where
  orderId : Option String
  rawSnippet : Option String
  failureType : FailureKind
  reason : String
  deriving Repr, DecidableEq

/-- Pydantic construction of `FailedRecord` from already-typed arguments
(as done by `add_record_failure`): the `Literal["mismatch", "hallucinated"]`
annotation on `failureType` rejects `dropped` with a `ValidationError`. -/
def mkFailedRecord (orderId : Option String) (rawSnippet : Option String)
    (failureType : FailureKind) (reason : String) : Except String FailedRecord :=
  match failureType with
  | .dropped =>
    .error "ValidationError: failureType: Input should be 'mismatch' or 'hallucinated'"
  | k => .ok ⟨orderId, rawSnippet, k, reason⟩

/-- Pydantic check of an `Optional[str]` field against a JSON value. -/
def pyOptStrField (v : JVal) : Except String (Option String) :=
  match v with
  | .null => .ok none
  | .str s => .ok (some s)
  | _ => .error "ValidationError: Input should be a valid string"

/-- Pydantic check of a required `str` field against a JSON value. -/
def pyStrField (v : JVal) : Except String String :=
  match v with
  | .str s => .ok s
  | _ => .error "ValidationError: Input should be a valid string"

/-- Pydantic check of `FailedRecord.failureType` against a JSON value:
only the strings of `Literal["mismatch", "hallucinated"]` are accepted. -/
def pyFailureTypeField (v : JVal) : Except String FailureKind :=
  match v with
  | .str "mismatch" => .ok .mismatch
  | .str "hallucinated" => .ok .hallucinated
  | _ => .error "ValidationError: failureType: Input should be 'mismatch' or 'hallucinated'"

/-- Pydantic construction `FailedRecord(orderId=…, rawSnippet=…,
failureType=…, reason=…)` from JSON values, as performed by
`parse_validation_response`. -/
def mkFailedRecordJ (orderId rawSnippet failureType reason : JVal) :
    Except String FailedRecord := do
  let oid ← pyOptStrField orderId
  let snip ← pyOptStrField rawSnippet
  let k ← pyFailureTypeField failureType
  let r ← pyStrField reason
  .ok ⟨oid, snip, k, r⟩

/-- `FailedBatch` (`schemas.py`): a batch that failed structural validation. -/
structure FailedBatch where
  batch_index : Nat
  raw_orders : List (List Char)
  error : String
  attempts : Nat
  deriving Repr, DecidableEq

/-- `DeadLetterQueue` (`schemas.py`): all failures from parse and
validation stages. -/
structure DeadLetterQueue where
  failed_batches : List FailedBatch := []
  failed_records : List FailedRecord := []
  deriving Repr, DecidableEq

/-- A fresh `DeadLetterQueue()`. -/
def emptyDLQ : DeadLetterQueue := ⟨[], []⟩

/-- `DeadLetterQueue.total_failures`: a `@property`, recomputed from the
current queue contents at each access. -/
def total_failures (q : DeadLetterQueue) : Nat :=
  (q.failed_batches.map (fun b => b.raw_orders.length)).sum + q.failed_records.length

/-- `DeadLetterQueue.add_batch_failure`. -/
def add_batch_failure (q : DeadLetterQueue) (batch_index : Nat)
    (raw_orders : List (List Char)) (error : String) (attempts : Nat) :
    DeadLetterQueue :=
  { q with failed_batches := q.failed_batches ++ [⟨batch_index, raw_orders, error, attempts⟩] }

/-- `DeadLetterQueue.add_record_failure`: truncates the snippet to 100
characters (`raw_snippet[:100] if raw_snippet else None` — an empty string is
falsy and becomes `None`), then constructs a `FailedRecord`, whose pydantic
validation may raise. -/
def add_record_failure (q : DeadLetterQueue) (failure_type : FailureKind)
    (reason : String) (order_id : Option String) (raw_snippet : Option String) :
    Except String DeadLetterQueue := do
  let snip : Option String :=
    match raw_snippet with
    | some s => if s = "" then none else some (s.take 100)
    | none => none
  let r ← mkFailedRecord order_id snip failure_type reason
  .ok { q with failed_records := q.failed_records ++ [r] }

/-- `QueryMeta` (`schemas.py`): execution counters. -/
structure QueryMeta where
  total_raw : Nat
  total_parsed : Nat
  total_valid : Nat
  total_failed : Nat
  deriving Repr, DecidableEq

/-- `QueryMeta.success_rate`. -/
def success_rate (m : QueryMeta) : ℚ :=
  if m.total_raw = 0 then 1 else (m.total_valid : ℚ) / (m.total_raw : ℚ)

/-- `RawOrderStore` (`schemas.py`): raw order strings from the API
(the `fetched_at` timestamp is omitted). -/
structure RawOrderStore where
  orders : List (List Char) := []
  deriving Repr, DecidableEq

/-- `RawOrderStore.get_batch`: the Python slice
`self.orders[batch_index * batch_size : batch_index * batch_size + batch_size]`. -/
def get_batch (s : RawOrderStore) (batch_index batch_size : Nat) : List (List Char) :=
  (s.orders.drop (batch_index * batch_size)).take batch_size

/-- `RawOrderStore.total_batches`:
`(len(self.orders) + batch_size - 1) // batch_size`. -/
def total_batches (s : RawOrderStore) (batch_size : Nat) : Nat :=
  (s.orders.length + batch_size - 1) / batch_size

/-! ## Character and string helpers (Python `str` modelled as `List Char`) -/

/-- Value of a decimal digit character. -/
def digitVal (c : Char) : Nat := c.toNat - 48

/-- The character of a decimal digit. -/
def charOfDigit (d : Nat) : Char :=
  match d with
  | 0 => '0' | 1 => '1' | 2 => '2' | 3 => '3' | 4 => '4'
  | 5 => '5' | 6 => '6' | 7 => '7' | 8 => '8' | _ => '9'

/-- Parse a non-empty all-digit character list as a natural number. -/
def parseNat (l : List Char) : Option Nat :=
  if l ≠ [] ∧ l.all Char.isDigit then
    some (l.foldl (fun a c => 10 * a + digitVal c) 0)
  else none

/-- Parse `<digits>` or `<digits>.<digits>` as a non-negative rational
(the decimal forms produced for order totals). -/
def parseDecimal (l : List Char) : Option ℚ :=
  match l.splitOn '.' with
  | [ip] => (parseNat ip).map (fun n => (n : ℚ))
  | [ip, fp] => do
    let n ← parseNat ip
    let f ← parseNat fp
    some ((n : ℚ) + (f : ℚ) / (10 : ℚ) ^ fp.length)
  | _ => none

/-- Whether `pat` is a prefix of `s` (Boolean, by character equality). -/
def startsWithChars : List Char → List Char → Bool
  | [], _ => true
  | _ :: _, [] => false
  | a :: as, b :: bs => a = b && startsWithChars as bs

/-- Python `pat in s`: substring containment. -/
def containsSub (pat : List Char) : List Char → Bool
  | [] => startsWithChars pat []
  | c :: rest => startsWithChars pat (c :: rest) || containsSub pat rest

/-- Python `str()` of a JSON value, as interpolated into f-strings.
Scalar cases are exact except for the decimal rendering of floats
(approximated by `ℚ`'s `toString`); containers are rendered roughly.
The pipeline only ever renders strings here. -/
def pyStr : JVal → String
  | .null => "None"
  | .bool b => if b then "True" else "False"
  | .num q => toString q
  | .str s => s
  | .arr _ => "[...]"
  | .obj _ => "{...}"

/-! ## Pydantic validation of `Order` (`Order.model_validate`) -/

/-- Pydantic lax check of a `float` field: accepts numbers, bools
(`bool` is an `int` in Python), and numeric strings. -/
def pyFloatField (v : JVal) : Except String ℚ :=
  match v with
  | .num q => .ok q
  | .bool b => .ok (if b then 1 else 0)
  | .str s =>
    match parseDecimal s.toList with
    | some q => .ok q
    | none => .error "ValidationError: Input should be a valid number"
  | _ => .error "ValidationError: Input should be a valid number"

/-- Pydantic lax check of a `bool` field: accepts bools, `0`/`1`
numbers, and the usual truthy/falsy strings (case-insensitive). -/
def pyBoolField (v : JVal) : Except String Bool :=
  match v with
  | .bool b => .ok b
  | .num q => if q = 0 then .ok false else if q = 1 then .ok true else
      .error "ValidationError: Input should be a valid boolean"
  | .str s =>
    let t := s.toLower
    if t = "true" ∨ t = "t" ∨ t = "yes" ∨ t = "y" ∨ t = "on" ∨ t = "1" then .ok true
    else if t = "false" ∨ t = "f" ∨ t = "no" ∨ t = "n" ∨ t = "off" ∨ t = "0" then .ok false
    else .error "ValidationError: Input should be a valid boolean"
  | _ => .error "ValidationError: Input should be a valid boolean"

/-- A required field of a pydantic model: missing keys are a
`ValidationError` (a stored JSON `null` is passed to the field check). -/
def pyReqField (d : PyDict) (k : String) : Except String JVal :=
  match pyLookup d k with
  | some v => .ok v
  | none => .error ("ValidationError: " ++ k ++ ": Field required")

/-- `OrderItem.model_validate`: `name: str`,
`rating: float` with `ge=1.0, le=5.0`. -/
def orderItemValidate (v : JVal) : Except String OrderItem :=
  match v with
  | .obj d => do
    let name ← pyReqField d "name" >>= pyStrField
    let rating ← pyReqField d "rating" >>= pyFloatField
    if rating < 1 ∨ 5 < rating then
      .error "ValidationError: rating: Input should be between 1.0 and 5.0"
    else
      .ok ⟨name, rating⟩
  | _ => .error "ValidationError: Input should be a valid dictionary or instance of OrderItem"

/-- `Order.model_validate` (pydantic): required fields in declaration
order, `state` of length exactly 2, `total > 0`, each item validated by
`OrderItem`; extra keys are ignored. -/
def orderModelValidate (v : JVal) : Except String Order :=
  match v with
  | .obj d => do
    let oid ← pyReqField d "orderId" >>= pyStrField
    let buyer ← pyReqField d "buyer" >>= pyStrField
    let city ← pyReqField d "city" >>= pyStrField
    let state ← pyReqField d "state" >>= pyStrField
    if state.length ≠ 2 then
      .error "ValidationError: state: String should have exactly 2 characters"
    else do
      let total ← pyReqField d "total" >>= pyFloatField
      if total ≤ 0 then
        .error "ValidationError: total: Input should be greater than 0"
      else do
        let itemsV ← pyReqField d "items"
        let items ← match itemsV with
          | .arr l => mapMExcept orderItemValidate l
          | _ => .error "ValidationError: items: Input should be a valid list"
        let returned ← pyReqField d "returned" >>= pyBoolField
        .ok ⟨oid, buyer, city, state, total, items, returned⟩
  | _ => .error "ValidationError: Input should be a valid dictionary or instance of Order"

/-- `Order.model_dump()`: the dict representation flowing between the
parse and validate stages. -/
def orderDump (o : Order) : PyDict :=
  [("orderId", .str o.orderId), ("buyer", .str o.buyer), ("city", .str o.city),
   ("state", .str o.state), ("total", .num o.total),
   ("items", .arr (o.items.map (fun it => .obj [("name", .str it.name), ("rating", .num it.rating)]))),
   ("returned", .bool o.returned)]

/-! ## validation.py -/

/-- Loop body of `validate_schema` over the elements of the `"orders"`
array, carrying the element index. When `Order.model_validate` fails, the
handler evaluates `order_data.get("orderId", f"index_{i}")` — an
`AttributeError` (modelled as `.error`) when the element is not a dict. -/
def vsAux : Nat → List JVal → Except String (List Order × List String)
  | _, [] => .ok ([], [])
  | i, el :: rest => do
    let acc ←
      match orderModelValidate el with
      | .ok o => .ok (Sum.inl o)
      | .error e =>
        match el with
        | .obj d =>
          .ok (Sum.inr ("Order " ++ pyStr (pyGetD d "orderId" (.str ("index_" ++ toString i))) ++ ": " ++ e))
        | _ => .error "AttributeError: object has no attribute 'get'"
    let (orders, errors) ← vsAux (i + 1) rest
    match acc with
    | Sum.inl o => .ok (o :: orders, errors)
    | Sum.inr msg => .ok (orders, msg :: errors)

/-- `validate_schema` (`validation.py`): validate `data["orders"]` against
the pydantic `Order` model. A missing `"orders"` key defaults to `[]`; a
non-list value yields zero orders and one error message; the function is
called on the value `json.loads` produced, so a non-dict argument raises
(`data.get` — `AttributeError`). -/
def validate_schema (data : JVal) : Except String (List Order × List String) :=
  match data with
  | .obj d =>
    match pyGetD d "orders" (.arr []) with
    | .arr l => vsAux 0 l
    | _ => .ok ([], ["'orders' field is not a list"])
  | _ => .error "AttributeError: object has no attribute 'get'"

/-- Python iteration over a JSON value (`for item in v`): lists yield
elements, strings yield characters, dicts yield keys, the rest raise
`TypeError`. -/
def pyIter (v : JVal) : Except String (List JVal) :=
  match v with
  | .arr l => .ok l
  | .str s => .ok (s.toList.map (fun c => .str (String.mk [c])))
  | .obj d => .ok (d.map (fun kv => .str kv.1))
  | _ => .error "TypeError: object is not iterable"

/-- Python attribute access `v.get`: only dicts have it. -/
def pyAsObj (v : JVal) : Except String PyDict :=
  match v with
  | .obj d => .ok d
  | _ => .error "AttributeError: object has no attribute 'get'"

/-- `parse_validation_response` (`validation.py`), with the response
abstracted to its `parse_json_response` result `d` (`none` = the response
text was not parseable as JSON). On `none`, every parsed order becomes a
`FailedRecord` with `failureType="mismatch"` and
`reason="Validation response unparseable"`. Otherwise the orders whose
`orderId` appears in the response's `valid` list are kept and each entry of
the `invalid` list becomes a `FailedRecord`. Exceptions (`.error`) escape to
the caller, `validate_batch`. -/
def parse_validation_response (d : Option JVal) (parsed_orders : List PyDict) :
    Except String (List PyDict × List FailedRecord) :=
  match d with
  | none => do
    let failed ← mapMExcept
      (fun o => mkFailedRecordJ (pyGet o "orderId") .null (.str "mismatch")
        (.str "Validation response unparseable"))
      parsed_orders
    .ok ([], failed)
  | some data => do
    let dd ← pyAsObj data
    let validItems ← pyIter (pyGetD dd "valid" (.arr []))
    let validIds ← mapMExcept (fun it => (pyAsObj it).map (fun o => pyGet o "orderId")) validItems
    let valid_orders := parsed_orders.filter
      (fun o => validIds.any (fun v => pyEq (pyGet o "orderId") v))
    let invalidItems ← pyIter (pyGetD dd "invalid" (.arr []))
    let failed ← mapMExcept
      (fun it => do
        let io ← pyAsObj it
        mkFailedRecordJ (pyGet io "orderId") (pyGet io "rawSnippet")
          (pyGetD io "failureType" (.str "mismatch")) (pyGetD io "reason" (.str "Unknown")))
      invalidItems
    .ok (valid_orders, failed)

/-- The raw records sent to the validation prompt: those containing an
`Order <id>:` marker for some parsed `orderId` (`validation.py` lines
106-109). -/
def matchingRaw (parsed_orders : List PyDict) (raw_orders : List (List Char)) :
    List (List Char) :=
  raw_orders.filter
    (fun r => parsed_orders.any
      (fun o => containsSub ("Order " ++ pyStr (pyGet o "orderId") ++ ":").toList r))

/-- `validate_batch` (`validation.py`). The `llm` argument is the model
collaborator: applied to the filtered raw records (which determine the
prompt), it returns the invocation outcome. The `Nat` component counts
model invocations (the instrumentation the concurrency semaphore wraps).
Any exception from the invocation or from `parse_validation_response` is
caught and the chunk passes through as valid. -/
def validate_batch (parsed_orders : List PyDict) (raw_orders : List (List Char))
    (llm : List (List Char) → Except String (Option JVal)) :
    (List PyDict × List FailedRecord) × Nat :=
  if parsed_orders.isEmpty then (([], []), 0)
  else
    let matching := matchingRaw parsed_orders raw_orders
    match llm matching with
    | .error _ => ((parsed_orders, []), 1)
    | .ok d =>
      match parse_validation_response d parsed_orders with
      | .error _ => ((parsed_orders, []), 1)
      | .ok r => (r, 1)

/-! ## agent.py -/

/-- `parse_batch` (`agent.py`): one model call for a chunk. The `llmOut`
argument is the invocation outcome for the prompt built from the chunk
(`.error` = the call raised; `.ok d` = a response whose
`parse_json_response` result is `d`). Every exception, including one
raised inside `validate_schema`, is converted to a batch-level error
string; a batch with per-record schema errors but a well-formed response
still succeeds with the salvaged orders. -/
def parse_batch (llmOut : Except String (Option JVal)) : List Order × Option String :=
  match llmOut with
  | .error e => ([], some e)
  | .ok none => ([], some "Failed to parse LLM response as JSON")
  | .ok (some data) =>
    match validate_schema data with
    | .error e => ([], some e)
    | .ok (orders, _errors) => (orders, none)

/-- Result of `parse_batch_with_retry`, with the side-effect traces the
retry loop performs: the returned triple `(orders, error, attempts)` plus
the backoff sleeps awaited (in seconds) and the list of attempt indices at
which `parse_batch` (hence the model) was invoked. -/
structure RetryResult where
  orders : List Order
  error : Option String
  attempts : Nat
  sleeps : List ℚ
  tried : List Nat
  deriving Repr, DecidableEq

/-- Loop of `parse_batch_with_retry` from attempt index `attempt`
(`for attempt in range(1, max_retries + 1)`): on success return that
attempt's orders and index; on failure remember the error and, when
`attempt < max_retries`, sleep `base_delay * 2 ** (attempt - 1)`; when
attempts are exhausted return `([], last_error, max_retries)`. The oracle
`att` gives the model outcome of each attempt. -/
def retryAux (att : Nat → Except String (Option JVal)) (max_retries : Nat)
    (base_delay : ℚ) (attempt : Nat) (last_error : Option String) : RetryResult :=
  if _h : max_retries < attempt then ⟨[], last_error, max_retries, [], []⟩
  else
    let r := parse_batch (att attempt)
    match r.2 with
    | none => ⟨r.1, none, attempt, [], [attempt]⟩
    | some e =>
      let rest := retryAux att max_retries base_delay (attempt + 1) (some e)
      ⟨rest.orders, rest.error, rest.attempts,
        (if attempt < max_retries then [base_delay * 2 ^ (attempt - 1)] else []) ++ rest.sleeps,
        attempt :: rest.tried⟩
termination_by max_retries + 1 - attempt
decreasing_by omega

/-- `parse_batch_with_retry` (`agent.py`): up to `max_retries` attempts
with exponential backoff, starting at attempt 1 with no remembered error. -/
def parse_batch_with_retry (att : Nat → Except String (Option JVal))
    (max_retries : Nat) (base_delay : ℚ) : RetryResult :=
  retryAux att max_retries base_delay 1 none

/-- `AgentState` (`agent.py`): the state flowing through the LangGraph
pipeline (`raw_store` is its `orders` list; `None` before fetch). -/
structure AgentState where
  query : String
  raw_store : Option (List (List Char))
  parsed_orders : List PyDict
  valid_orders : List PyDict
  dlq : DeadLetterQueue
  error : Option String
  deriving Repr

/-- The initial state built by `run_agent_async`. -/
def initial_state (query : String) : AgentState :=
  ⟨query, none, [], [], emptyDLQ, none⟩

/-- `fetch_node` (`agent.py`): one call to the fetch collaborator, whose
outcome is `fetchOut`; on success the raw store is populated, on
`APIError` the terminal `error` field is set. -/
def fetch_node (fetchOut : Except String (List (List Char))) (st : AgentState) :
    AgentState :=
  match fetchOut with
  | .ok orders => { st with raw_store := some orders }
  | .error e => { st with error := some e }

/-- Merge step of `parse_node` over the gathered per-batch results, in
batch-index order: failed batches go to the dead-letter queue (with the
chunk re-read from the store), successes extend the order list. -/
def parseMerge (store : RawOrderStore) (chunk_size : Nat)
    (acc : List Order × DeadLetterQueue) (ir : Nat × RetryResult) :
    List Order × DeadLetterQueue :=
  match ir.2.error with
  | some e =>
    (acc.1, add_batch_failure acc.2 ir.1 (get_batch store ir.1 chunk_size) e ir.2.attempts)
  | none => (acc.1 ++ ir.2.orders, acc.2)

/-- `parse_node` (`agent.py`): short-circuits to empty results on a prior
error, otherwise chunks the raw store, runs `parse_batch_with_retry` per
chunk (oracle `att i` = outcomes for batch `i`) and merges in index order.
Output: the updated state, the number of model invocations performed, and
whether the error short-circuit branch was taken. A `None` raw store
without a prior error would crash `RawOrderStore.model_validate`. -/
def parse_node (chunk_size max_retries : Nat) (base_delay : ℚ)
    (att : Nat → Nat → Except String (Option JVal)) (st : AgentState) :
    Except String (AgentState × Nat × Bool) :=
  if st.error.isSome then
    .ok ({ st with parsed_orders := [], dlq := emptyDLQ }, 0, true)
  else
    match st.raw_store with
    | none => .error "ValidationError: raw_store"
    | some orders =>
      let store : RawOrderStore := ⟨orders⟩
      let tb := total_batches store chunk_size
      let results := (List.range tb).map
        (fun i => (i, parse_batch_with_retry (att i) max_retries base_delay))
      let merged := results.foldl (parseMerge store chunk_size) ([], emptyDLQ)
      let calls := (results.map (fun ir => ir.2.tried.length)).sum
      .ok ({ st with parsed_orders := merged.1.map orderDump, dlq := merged.2 }, calls, false)

/-- `validate_node` (`agent.py`): short-circuits to an empty valid list on
a prior error; with no parsed orders it returns immediately without model
calls (not the error short-circuit); otherwise it re-chunks the parsed
orders, runs `validate_batch` per chunk against all raw orders (oracle
`llm i` = the model outcome for batch `i` given its filtered raw records)
and merges valid orders and failed records in index order. -/
def validate_node (chunk_size : Nat)
    (llm : Nat → List (List Char) → Except String (Option JVal)) (st : AgentState) :
    Except String (AgentState × Nat × Bool) :=
  if st.error.isSome then
    .ok ({ st with valid_orders := [] }, 0, true)
  else
    match st.raw_store with
    | none => .error "ValidationError: raw_store"
    | some raws =>
      if st.parsed_orders.isEmpty then
        .ok ({ st with valid_orders := [] }, 0, false)
      else
        let tb := (st.parsed_orders.length + chunk_size - 1) / chunk_size
        let results := (List.range tb).map
          (fun i => validate_batch ((st.parsed_orders.drop (i * chunk_size)).take chunk_size) raws (llm i))
        let all_valid := (results.map (fun r => r.1.1)).flatten
        let new_records := (results.map (fun r => r.1.2)).flatten
        let calls := (results.map (fun r => r.2)).sum
        let dlq1 := { st.dlq with failed_records := st.dlq.failed_records ++ new_records }
        .ok ({ st with valid_orders := all_valid, dlq := dlq1 }, calls, false)

/-- The compiled LangGraph pipeline `fetch → parse → validate` run on the
initial state, with the per-stage model-call counts and short-circuit
flags exposed. -/
def pipeline (fetchOut : Except String (List (List Char)))
    (att : Nat → Nat → Except String (Option JVal))
    (llm : Nat → List (List Char) → Except String (Option JVal))
    (query : String) (chunk_size max_retries : Nat) (base_delay : ℚ) :
    Except String (AgentState × (Nat × Bool) × (Nat × Bool)) := do
  let st1 := fetch_node fetchOut (initial_state query)
  let (st2, pcalls, psc) ← parse_node chunk_size max_retries base_delay att st1
  let (st3, vcalls, vsc) ← validate_node chunk_size llm st2
  .ok (st3, (pcalls, psc), (vcalls, vsc))

/-! ## Anchor extractor (spec §4.1) -/

/-- Modelled from the spec: `OrderAnchors`, the ground-truth tuple
`{orderId, total, state, returnedFlag}` extracted from one raw record by
fixed pattern rules, plus a back-reference to the source text (the anchor
extractor is not among the repository's `src/` files; only the spec
describes it). -/
structure OrderAnchors where
  orderId : List Char
  total : ℚ
  state : List Char
  returned : Bool
  sourceText : List Char
  deriving Repr, DecidableEq

/-- Modelled from the spec: `AnchorExtractionError`, carrying which of the
four required fields could not be located by its fixed pattern. -/
inductive AnchorExtractionError where
  | fieldNotFound : String → AnchorExtractionError
  deriving Repr, DecidableEq

/-- Match a literal pattern at the front of the text and return the rest. -/
def expectLit : List Char → List Char → Option (List Char)
  | [], s => some s
  | _ :: _, [] => none
  | a :: pat, b :: s => if a = b then expectLit pat s else none

/-- Split at the first occurrence of a delimiter character:
`(text before it, text after it)`, `none` if the delimiter is absent. -/
def splitAtChar (c : Char) : List Char → Option (List Char × List Char)
  | [] => none
  | x :: xs =>
    if x = c then some ([], xs)
    else (splitAtChar c xs).map (fun p => (x :: p.1, p.2))

/-- Parse `<digits>` or `<digits>.<digits>` as a non-negative rational. -/
def parseAmount (l : List Char) : Option ℚ :=
  match splitAtChar '.' l with
  | some (ip, fp) => do
    let n ← parseNat ip
    let f ← parseNat fp
    some ((n : ℚ) + (f : ℚ) / (10 : ℚ) ^ fp.length)
  | none => (parseNat l).map (fun n => (n : ℚ))

/-- Modelled from the spec: `extractAnchors(raw) -> OrderAnchors` (§4.1;
the extractor itself is not among the repository's `src/` files). The four
required fields are located by fixed patterns over the input grammar
`Order <id>: Buyer=<name>, Location=<city>, <ST>, Total=$<amount>,
Items: ..., Returned=<Yes|No>`: the order id is the digit run between
`Order ` and `:`; the state is the two-letter upper-case token between the
`Location` field and `Total=$`; the total is the decimal after `Total=$`;
the returned flag is the literal `Returned=Yes`/`Returned=No` terminating
the record. Failure to locate any of them is an `AnchorExtractionError`
naming the field. -/
def extractAnchors (s : List Char) : Except AnchorExtractionError OrderAnchors :=
  match expectLit ("Order ".toList) s with
  | none => .error (.fieldNotFound "orderId")
  | some r1 =>
    match splitAtChar ':' r1 with
    | none => .error (.fieldNotFound "orderId")
    | some (oid, r2) =>
      if oid.isEmpty || !(oid.all Char.isDigit) then .error (.fieldNotFound "orderId")
      else
        match expectLit (" Buyer=".toList) r2 with
        | none => .error (.fieldNotFound "state")
        | some r3 =>
          match splitAtChar ',' r3 with
          | none => .error (.fieldNotFound "state")
          | some (_buyer, r4) =>
            match expectLit (" Location=".toList) r4 with
            | none => .error (.fieldNotFound "state")
            | some r5 =>
              match splitAtChar ',' r5 with
              | none => .error (.fieldNotFound "state")
              | some (_city, r6) =>
                match expectLit [' '] r6 with
                | none => .error (.fieldNotFound "state")
                | some r7 =>
                  match splitAtChar ',' r7 with
                  | none => .error (.fieldNotFound "state")
                  | some (st2, r8) =>
                    if st2.length ≠ 2 || !(st2.all Char.isUpper) then
                      .error (.fieldNotFound "state")
                    else
                      match expectLit (" Total=$".toList) r8 with
                      | none => .error (.fieldNotFound "total")
                      | some r9 =>
                        match splitAtChar ',' r9 with
                        | none => .error (.fieldNotFound "total")
                        | some (amt, _r10) =>
                          match parseAmount amt with
                          | none => .error (.fieldNotFound "total")
                          | some total =>
                            if ("Returned=Yes".toList).isSuffixOf s then
                              .ok ⟨oid, total, st2, true, s⟩
                            else if ("Returned=No".toList).isSuffixOf s then
                              .ok ⟨oid, total, st2, false, s⟩
                            else .error (.fieldNotFound "returned")

/-- Decimal rendering of a natural number (as Python's string formatting
writes the dollars part of a total). -/
def natChars (n : Nat) : List Char :=
  if n = 0 then ['0'] else (Nat.digits 10 n).reverse.map charOfDigit

/-- Two-digit rendering of the cents part (`{:.2f}` formatting). -/
def twoDigChars (c : Nat) : List Char :=
  [charOfDigit (c / 10), charOfDigit (c % 10)]

/-- Rendering of the amount `w` dollars and `c` cents as `{:.2f}` writes it. -/
def amtChars (w c : Nat) : List Char :=
  natChars w ++ '.' :: twoDigChars c

/-- A raw record of the fixed input grammar
`Order <id>: Buyer=<name>, Location=<city>, <ST>, Total=$<amount>,
Items: ..., Returned=<Yes|No>` (the format `dummy_customer_api.py`
generates), with total `w + c/100` dollars. -/
def formatRaw (oid buyer city st2 : List Char) (w cents : Nat)
    (items : List Char) (ret : Bool) : List Char :=
  "Order ".toList ++ (oid ++ ':' ::
    (" Buyer=".toList ++ (buyer ++ ',' ::
      (" Location=".toList ++ (city ++ ',' ::
        (' ' :: (st2 ++ ',' ::
          (" Total=$".toList ++ (amtChars w cents ++ ',' ::
            (" Items: ".toList ++ (items ++ ',' ::
              (" Returned=".toList ++ (if ret then "Yes".toList else "No".toList)))))))))))))

/-! ## Helper lemmas -/

/-- Python's `(a + n - 1) // n` is the ceiling of `a / n`. -/
theorem add_div_eq_ceil (a n : Nat) (hn : 0 < n) :
    (a + n - 1) / n = ⌈(a : ℚ) / (n : ℚ)⌉₊ := by
  rcases Nat.eq_zero_or_pos a with ha | ha
  · subst ha
    rw [Nat.div_eq_of_lt (by omega)]
    simp
  · have hnQ : (0 : ℚ) < (n : ℚ) := by exact_mod_cast hn
    set t := (a + n - 1) / n with ht
    have h1 : t * n ≤ a + n - 1 := Nat.div_mul_le_self _ _
    have h2 : a + n - 1 < (t + 1) * n := by
      rw [← Nat.div_lt_iff_lt_mul hn, ← ht]
      omega
    have hle : a ≤ t * n := by
      have := h2
      rw [Nat.add_mul, Nat.one_mul] at this
      omega
    have htpos : 0 < t := by
      rcases Nat.eq_zero_or_pos t with h | h
      · rw [h] at hle; omega
      · exact h
    have hlt : (t - 1) * n < a := by
      rw [Nat.sub_mul, Nat.one_mul]
      omega
    symm
    rw [Nat.ceil_eq_iff (by omega)]
    constructor
    · rw [lt_div_iff₀ hnQ]
      exact_mod_cast hlt
    · rw [div_le_iff₀ hnQ]
      exact_mod_cast hle

/-- Flattening the `n`-chunks of a list recovers the list. -/
theorem chunks_flatten {α : Type} (n : Nat) :
    ∀ (k : Nat) (l : List α), l.length ≤ k * n →
      ((List.range k).map (fun i => (l.drop (i * n)).take n)).flatten = l := by
  intro k
  induction k with
  | zero =>
    intro l hl
    simp only [Nat.zero_mul, Nat.le_zero, List.length_eq_zero] at hl
    simp [hl]
  | succ k ih =>
    intro l hl
    rw [List.range_succ_eq_map]
    simp only [List.map_cons, List.map_map, List.flatten_cons]
    have hrest : ((List.range k).map ((fun i => (l.drop (i * n)).take n) ∘ Nat.succ))
        = (List.range k).map (fun i => ((l.drop n).drop (i * n)).take n) := by
      apply List.map_congr_left
      intro i _
      simp only [Function.comp_apply]
      rw [List.drop_drop, Nat.succ_mul, Nat.add_comm n (i * n)]
    rw [Nat.add_mul, Nat.one_mul] at hl
    rw [hrest, ih (l.drop n) (by simp; omega)]
    simp

/-! ## Claim C6 -/

/-- C6: for every dead-letter queue, `totalFailures` equals the sum over
the failed batches of their raw-record counts plus the number of failed
records, recomputed from the current queue contents; in the concrete
scenario of two failed batches of 5 raw records each plus three record
failures added through the mutation API, it is 13. -/
theorem C6_total_failures_derived :
    (∀ q : DeadLetterQueue,
      total_failures q =
        (q.failed_batches.map (fun b => b.raw_orders.length)).sum + q.failed_records.length) ∧
    Except.map total_failures
      (do
        let q1 := add_batch_failure emptyDLQ 0 (List.replicate 5 ['x']) "parse failed" 3
        let q2 := add_batch_failure q1 1 (List.replicate 5 ['y']) "parse failed" 3
        let q3 ← add_record_failure q2 .mismatch "total differs" (some "1001") none
        let q4 ← add_record_failure q3 .hallucinated "no raw source" (some "9999") none
        add_record_failure q4 .mismatch "state differs" none (some "Order 1003: ..."))
      = Except.ok 13 := by
  refine ⟨fun q => rfl, rfl⟩

/-! ## Claim C7 -/

/-- C7: `successRate` is `totalValid / totalRaw` when `totalRaw` is
positive and exactly 1 when `totalRaw = 0`. -/
theorem C7_success_rate_spec (m : QueryMeta) :
    (m.total_raw = 0 → success_rate m = 1) ∧
    (0 < m.total_raw → success_rate m = (m.total_valid : ℚ) / (m.total_raw : ℚ)) := by
  constructor
  · intro h
    simp [success_rate, h]
  · intro h
    simp [success_rate, Nat.pos_iff_ne_zero.mp h]

/-- Witness for C7 at concrete metadata values. -/
theorem C7_success_rate_spec_witness :
    (0 < 4 ∧ success_rate ⟨4, 3, 2, 13⟩ = (2 : ℚ) / (4 : ℚ)) ∧
    ((0 : Nat) = 0 ∧ success_rate ⟨0, 0, 0, 0⟩ = 1) :=
  ⟨⟨by decide, (C7_success_rate_spec ⟨4, 3, 2, 13⟩).2 (by decide)⟩,
   ⟨rfl, (C7_success_rate_spec ⟨0, 0, 0, 0⟩).1 rfl⟩⟩

/-! ## Claim C9 -/

/-- C9 (code behaviour at the failing input): calling
`add_record_failure` with failure type `dropped` never appends a record —
for every queue, reason, order id and snippet it raises, because
`FailedRecord.failureType` is declared `Literal["mismatch", "hallucinated"]`
and pydantic rejects `"dropped"` at construction, contradicting
`add_record_failure`'s own `Literal["mismatch", "dropped", "hallucinated"]`
signature and docstring. -/
theorem C9_dropped_raises (q : DeadLetterQueue) (reason : String)
    (order_id raw_snippet : Option String) :
    add_record_failure q .dropped reason order_id raw_snippet =
      .error "ValidationError: failureType: Input should be 'mismatch' or 'hallucinated'" :=
  rfl

/-! ## Claim C10 -/

/-- C10: for batch size `n ≥ 1`, `total_batches` is the ceiling of the
store size over `n`, every batch with index below it is non-empty with at
most `n` elements, and concatenating the batches in index order restores
the stored order list. -/
theorem C10_batching (s : RawOrderStore) (n : Nat) (hn : 1 ≤ n) :
    total_batches s n = ⌈(s.orders.length : ℚ) / (n : ℚ)⌉₊ ∧
    (∀ i, i < total_batches s n → get_batch s i n ≠ [] ∧ (get_batch s i n).length ≤ n) ∧
    ((List.range (total_batches s n)).map (fun i => get_batch s i n)).flatten = s.orders := by
  have hceil := add_div_eq_ceil s.orders.length n hn
  have hlen : s.orders.length ≤ total_batches s n * n := by
    rcases Nat.eq_zero_or_pos s.orders.length with h0 | hpos
    · simp [h0]
    · have h2 : s.orders.length + n - 1 < (total_batches s n + 1) * n := by
        rw [← Nat.div_lt_iff_lt_mul hn]
        exact Nat.lt_succ_self _
      rw [Nat.add_mul, Nat.one_mul] at h2
      omega
  refine ⟨hceil, fun i hi => ?_, ?_⟩
  · have hmul : (i + 1) * n ≤ s.orders.length + n - 1 := by
      rw [← Nat.le_div_iff_mul_le hn]
      exact hi
    rw [Nat.add_mul, Nat.one_mul] at hmul
    have hpos : 0 < s.orders.length := by
      by_contra h
      have : s.orders.length = 0 := by omega
      have : total_batches s n = 0 := by
        unfold total_batches
        rw [this]
        exact Nat.div_eq_of_lt (by omega)
      omega
    have hlt : i * n < s.orders.length := by omega
    constructor
    · have : (get_batch s i n).length = min n (s.orders.length - i * n) := by
        simp [get_batch]
      intro hnil
      rw [hnil] at this
      simp at this
      omega
    · simp [get_batch]
  · exact chunks_flatten n (total_batches s n) s.orders hlen

/-- Witness for C10 at a concrete five-element store with batch size 2. -/
theorem C10_batching_witness :
    1 ≤ 2 ∧
    total_batches ⟨[['a'], ['b'], ['c'], ['d'], ['e']]⟩ 2 =
      ⌈((5 : Nat) : ℚ) / (2 : ℚ)⌉₊ ∧
    ((List.range (total_batches ⟨[['a'], ['b'], ['c'], ['d'], ['e']]⟩ 2)).map
      (fun i => get_batch ⟨[['a'], ['b'], ['c'], ['d'], ['e']]⟩ i 2)).flatten =
      [['a'], ['b'], ['c'], ['d'], ['e']] :=
  ⟨by decide,
   (C10_batching ⟨[['a'], ['b'], ['c'], ['d'], ['e']]⟩ 2 (by decide)).1,
   (C10_batching ⟨[['a'], ['b'], ['c'], ['d'], ['e']]⟩ 2 (by decide)).2.2⟩

/-! ## Claim C1 -/

/-- The string part of a JSON value when it is a string, else `None`
(what pydantic stores into `Optional[str]` from a null-or-string value). -/
def jvalToOptStr (v : JVal) : Option String :=
  match v with
  | .str s => some s
  | _ => none

/-- The `FailedRecord` built for one parsed-order dict when the
validation response is unparseable. -/
def unparseableFR (d : PyDict) : FailedRecord :=
  ⟨jvalToOptStr (pyGet d "orderId"), none, .mismatch, "Validation response unparseable"⟩

/-- An effectful map whose steps all succeed collects the successes. -/
theorem mapMExcept_ok {α β : Type} {f : α → Except String β} {g : α → β} :
    ∀ l : List α, (∀ a ∈ l, f a = .ok (g a)) → mapMExcept f l = .ok (l.map g) := by
  intro l h
  induction l with
  | nil => rfl
  | cons a t ih =>
    simp only [mapMExcept]
    rw [h a (by simp), ih (fun x hx => h x (by simp [hx]))]
    rfl

/-- C1 (amended): the two failure modes of the semantic validator are
asymmetric. For every non-empty chunk of parsed orders (dicts produced by
`Order.model_dump`), if the model's validation response is not parseable
as JSON, `validate_batch` returns zero valid orders and one
`FailedRecord` per record with reason `"Validation response unparseable"`
(capital V — the code's literal at `validation.py` line 158; the claim's
quoted all-lower-case string differs); whereas if the model invocation
raises, `validate_batch` returns the chunk unchanged as valid with no
failed records. -/
theorem C1_validate_batch_asymmetry (orders : List Order) (raws : List (List Char))
    (llm : List (List Char) → Except String (Option JVal)) (hne : orders ≠ []) :
    (llm (matchingRaw (orders.map orderDump) raws) = .ok none →
      validate_batch (orders.map orderDump) raws llm =
        (([], orders.map (fun o =>
          ⟨some o.orderId, none, .mismatch, "Validation response unparseable"⟩)), 1)) ∧
    (∀ (parsed : List PyDict) (e : String), parsed ≠ [] →
      llm (matchingRaw parsed raws) = .error e →
      validate_batch parsed raws llm = ((parsed, []), 1)) := by
  constructor
  · intro hllm
    rcases horders : orders with _ | ⟨o0, otl⟩
    · exact absurd horders hne
    subst horders
    rw [List.map_cons] at hllm
    simp only [validate_batch, List.map_cons, List.isEmpty_cons, Bool.false_eq_true,
      if_false]
    rw [hllm]
    simp only [parse_validation_response]
    have hstep : mapMExcept
        (fun o => mkFailedRecordJ (pyGet o "orderId") JVal.null (JVal.str "mismatch")
          (JVal.str "Validation response unparseable"))
        (orderDump o0 :: List.map orderDump otl) =
        .ok ((orderDump o0 :: List.map orderDump otl).map unparseableFR) := by
      apply mapMExcept_ok
      intro a ha
      rw [← List.map_cons] at ha
      obtain ⟨o, _, rfl⟩ := List.mem_map.mp ha
      rfl
    rw [hstep]
    show (([], List.map unparseableFR (orderDump o0 :: List.map orderDump otl)), 1) = _
    rw [List.map_cons, List.map_map]
    rfl
  · intro parsed e hpne hllm
    rcases parsed with _ | ⟨p0, ptl⟩
    · exact absurd rfl hpne
    simp only [validate_batch, List.isEmpty_cons, Bool.false_eq_true, if_false]
    rw [hllm]

/-- Witness for C1 at a concrete one-order chunk: the unparseable-response
mode rejects with the capitalised reason, the raising-invocation mode
passes the chunk through. -/
theorem C1_validate_batch_asymmetry_witness :
    ([⟨"1001", "John Smith", "Columbus", "OH", 7421 / 10, [⟨"Laptop", 21 / 5⟩], false⟩]
        ≠ ([] : List Order) ∧
      validate_batch
        ([⟨"1001", "John Smith", "Columbus", "OH", 7421 / 10, [⟨"Laptop", 21 / 5⟩], false⟩].map
          orderDump) [] (fun _ => .ok none) =
        (([], [⟨some "1001", none, .mismatch, "Validation response unparseable"⟩]), 1)) ∧
    validate_batch [[("orderId", JVal.str "1001")]] [] (fun _ => .error "timeout") =
      (([[("orderId", JVal.str "1001")]], []), 1) :=
  ⟨⟨by decide,
    (C1_validate_batch_asymmetry
      [⟨"1001", "John Smith", "Columbus", "OH", 7421 / 10, [⟨"Laptop", 21 / 5⟩], false⟩]
      [] (fun _ => .ok none) (by decide)).1 rfl⟩,
   (C1_validate_batch_asymmetry
      [⟨"1001", "John Smith", "Columbus", "OH", 7421 / 10, [⟨"Laptop", 21 / 5⟩], false⟩]
      [] (fun _ => .error "timeout") (by decide)).2
     [[("orderId", JVal.str "1001")]] "timeout" (List.cons_ne_nil _ _) rfl⟩

/-- C1 counterexample to the claim as stated: at a concrete chunk whose
validation response is unparseable, the produced `FailedRecord` carries
reason `"Validation response unparseable"`, which is not the claim's
string `"validation response unparseable"`. -/
theorem C1_reason_not_lower_case :
    (validate_batch [[("orderId", JVal.str "1001")]] [] (fun _ => .ok none)).1.2 =
      [⟨some "1001", none, .mismatch, "Validation response unparseable"⟩] ∧
    ∀ r ∈ (validate_batch [[("orderId", JVal.str "1001")]] [] (fun _ => .ok none)).1.2,
      r.reason ≠ "validation response unparseable" := by
  decide

/-! ## Claim C3 -/

/-- C3 (code behaviour at the failing input): a parsed record is silently
lost by the validate stage when the model's validation response omits its
`orderId` from both the `valid` and `invalid` lists. With one parsed
order `1001` in the state and the response `{"valid": [], "invalid": []}`,
`validate_node` completes normally (one model call, no short-circuit) yet
returns an empty merged valid-order list and an unchanged empty
dead-letter queue: order `1001` appears in neither, contradicting the
claim (and spec §8, which calls any such record a bug). -/
theorem C3_parsed_record_lost :
    validate_node 30 (fun _ _ => .ok (some (.obj [("valid", .arr []), ("invalid", .arr [])])))
      ⟨"Show me all orders",
       some ["Order 1001: Buyer=John Smith, Location=Columbus, OH, Total=$742.10, Items: Laptop (4.2*), Returned=No".toList],
       [orderDump ⟨"1001", "John Smith", "Columbus", "OH", 7421 / 10, [⟨"Laptop", 21 / 5⟩], false⟩],
       [], emptyDLQ, none⟩ =
      .ok (⟨"Show me all orders",
       some ["Order 1001: Buyer=John Smith, Location=Columbus, OH, Total=$742.10, Items: Laptop (4.2*), Returned=No".toList],
       [orderDump ⟨"1001", "John Smith", "Columbus", "OH", 7421 / 10, [⟨"Laptop", 21 / 5⟩], false⟩],
       [], emptyDLQ, none⟩, 1, false) :=
  rfl

/-! ## Claim C4 -/

/-- C4 (code behaviour at the failing input): a malformed element of the
`"orders"` array that is not a dict does abort the whole batch — after
`Order.model_validate` rejects it, the error handler evaluates
`order_data.get("orderId", ...)` on it and raises `AttributeError`
(`validation.py` line 71), so `validate_schema` raises instead of
recording one error message and salvaging the rest; a well-formed sibling
element is lost with it. The non-list branch of the claim does hold: a
non-list `"orders"` value yields zero orders and exactly one message. -/
theorem C4_nondict_element_raises :
    validate_schema (.obj [("orders", .arr
        [.str "not a dict",
         .obj [("orderId", .str "1001"), ("buyer", .str "John Smith"),
               ("city", .str "Columbus"), ("state", .str "OH"),
               ("total", .num (7421 / 10)),
               ("items", .arr [.obj [("name", .str "Laptop"), ("rating", .num (21 / 5))]]),
               ("returned", .bool false)]])]) =
      .error "AttributeError: object has no attribute 'get'" ∧
    validate_schema (.obj [("orders", .str "oops")]) =
      .ok ([], ["'orders' field is not a list"]) :=
  ⟨rfl, rfl⟩

/-! ## Claim C2 -/

/-- Run of the retry loop from attempt `a` when every remaining attempt
fails: all attempts `a..n` are made, sleeps happen after each failed
attempt except the `n`-th, and the result is empty with the last error. -/
theorem retryAux_all_fail (att : Nat → Except String (Option JVal)) (n : Nat) (d : ℚ) :
    ∀ (rem a : Nat) (e0 : Option String), a + rem = n + 1 → 1 ≤ a →
      (∀ k, a ≤ k → k ≤ n → (parse_batch (att k)).2 ≠ none) →
      retryAux att n d a e0 =
        ⟨[], if a ≤ n then (parse_batch (att n)).2 else e0, n,
         (List.range' a (n - a)).map (fun k => d * 2 ^ (k - 1)),
         List.range' a (n + 1 - a)⟩ := by
  intro rem
  induction rem with
  | zero =>
    intro a e0 hrem ha hfail
    have han : a = n + 1 := by omega
    subst han
    rw [retryAux]
    rw [dif_pos (by omega)]
    have h1 : ¬ n + 1 ≤ n := by omega
    have h2 : n - (n + 1) = 0 := by omega
    have h3 : n + 1 - (n + 1) = 0 := by omega
    rw [if_neg h1, h2, h3]
    rfl
  | succ rem ih =>
    intro a e0 hrem ha hfail
    have han : a ≤ n := by omega
    rw [retryAux, dif_neg (by omega)]
    rcases hr : (parse_batch (att a)).2 with _ | e
    · exact absurd hr (hfail a le_rfl han)
    simp only [hr]
    rw [ih (a + 1) (some e) (by omega) (by omega)
      (fun k hk1 hk2 => hfail k (by omega) hk2)]
    have herr : (if a + 1 ≤ n then (parse_batch (att n)).2 else some e) =
        (if a ≤ n then (parse_batch (att n)).2 else e0) := by
      rcases Nat.lt_or_ge a n with h | h
      · rw [if_pos (by omega), if_pos han]
      · have hae : a = n := by omega
        subst hae
        rw [if_neg (by omega), if_pos le_rfl, ← hr]
    rw [herr]
    rcases Nat.lt_or_ge a n with h | h
    · have hs : n - a = (n - (a + 1)) + 1 := by omega
      have ht : n + 1 - a = (n + 1 - (a + 1)) + 1 := by omega
      rw [hs, ht, List.range'_succ, List.range'_succ]
      simp only [List.map_cons]
      rw [if_pos h]
      rfl
    · have hae : a = n := by omega
      subst hae
      simp [List.range']

/-- Run of the retry loop from attempt `a` when `k` is the first
succeeding attempt at or after `a`: attempts `a..k` are made with sleeps
after each failure, and attempt `k`'s orders are returned with index `k`. -/
theorem retryAux_first_success (att : Nat → Except String (Option JVal)) (n : Nat) (d : ℚ) :
    ∀ (rem a : Nat) (e0 : Option String) (k : Nat), a + rem = n + 1 → 1 ≤ a →
      a ≤ k → k ≤ n → (parse_batch (att k)).2 = none →
      (∀ j, a ≤ j → j < k → (parse_batch (att j)).2 ≠ none) →
      retryAux att n d a e0 =
        ⟨(parse_batch (att k)).1, none, k,
         (List.range' a (k - a)).map (fun j => d * 2 ^ (j - 1)),
         List.range' a (k + 1 - a)⟩ := by
  intro rem
  induction rem with
  | zero =>
    intro a e0 k hrem ha hak hkn _ _
    omega
  | succ rem ih =>
    intro a e0 k hrem ha hak hkn hk hfirst
    rw [retryAux, dif_neg (by omega)]
    rcases Nat.eq_or_lt_of_le hak with hae | hlt
    · subst hae
      simp only [hk]
      have hs : a - a = 0 := by omega
      have ht : a + 1 - a = 1 := by omega
      rw [hs, ht]
      rfl
    · rcases hr : (parse_batch (att a)).2 with _ | e
      · exact absurd hr (hfirst a le_rfl hlt)
      simp only [hr]
      rw [ih (a + 1) (some e) k (by omega) (by omega) (by omega) hkn hk
        (fun j hj1 hj2 => hfirst j (by omega) hj2)]
      have hs : k - a = (k - (a + 1)) + 1 := by omega
      have ht : k + 1 - a = (k + 1 - (a + 1)) + 1 := by omega
      rw [hs, ht, List.range'_succ, List.range'_succ]
      simp only [List.map_cons]
      rw [if_pos (by omega)]
      rfl

/-- C2: retries with exponential backoff. If every attempt of
`parse_batch` fails, `parse_batch_with_retry` with `max_retries = n ≥ 1`
and `base_delay = d` performs exactly the attempts `1..n` (the `tried`
trace), sleeps `d * 2^(attempt-1)` after each failed attempt except the
last (the `sleeps` trace lists attempts `1..n-1`), and returns no orders,
the last attempt's error, and attempt count `n`. If instead some attempt
succeeds and `k` is the first such attempt, it performs attempts `1..k`,
sleeps only for the failed attempts `1..k-1`, and returns attempt `k`'s
orders with no error and attempt count `k`. -/
theorem C2_retry_backoff (att : Nat → Except String (Option JVal)) (n : Nat) (d : ℚ)
    (hn : 1 ≤ n) :
    ((∀ k, 1 ≤ k → k ≤ n → (parse_batch (att k)).2 ≠ none) →
      parse_batch_with_retry att n d =
        ⟨[], (parse_batch (att n)).2, n,
         (List.range' 1 (n - 1)).map (fun k => d * 2 ^ (k - 1)),
         List.range' 1 n⟩) ∧
    (∀ k, 1 ≤ k → k ≤ n → (parse_batch (att k)).2 = none →
      (∀ j, 1 ≤ j → j < k → (parse_batch (att j)).2 ≠ none) →
      parse_batch_with_retry att n d =
        ⟨(parse_batch (att k)).1, none, k,
         (List.range' 1 (k - 1)).map (fun j => d * 2 ^ (j - 1)),
         List.range' 1 k⟩) := by
  constructor
  · intro hfail
    rw [parse_batch_with_retry, retryAux_all_fail att n d n 1 none (by omega) le_rfl hfail]
    rw [if_pos hn]
    rfl
  · intro k h1 h2 hk hfirst
    rw [parse_batch_with_retry,
      retryAux_first_success att n d n 1 none k (by omega) le_rfl h1 h2 hk hfirst]
    rfl

/-- Witness for C2 with `n = 3`, `d = 1/2`: an always-failing oracle
yields three attempts, sleeps `1/2` and `1`, and the last error; an
oracle first succeeding at attempt 2 yields two attempts and one sleep. -/
theorem C2_retry_backoff_witness :
    (1 ≤ 3 ∧ parse_batch_with_retry (fun _ => .error "boom") 3 (1 / 2) =
      ⟨[], some "boom", 3, [1 / 2, 1], [1, 2, 3]⟩) ∧
    parse_batch_with_retry
      (fun k => if k = 1 then .error "boom" else .ok (some (.obj []))) 3 (1 / 2) =
      ⟨[], none, 2, [1 / 2], [1, 2]⟩ := by
  refine ⟨⟨by decide, ?_⟩, ?_⟩
  · rw [(C2_retry_backoff (fun _ => .error "boom") 3 (1 / 2) (by decide)).1
      (fun k _ _ => by simp [parse_batch])]
    simp [parse_batch, List.range']
  · rw [(C2_retry_backoff (fun k => if k = 1 then .error "boom" else .ok (some (.obj [])))
      3 (1 / 2) (by decide)).2 2 (by decide) (by decide) (by decide)
      (fun j hj1 hj2 => by
        have hj : j = 1 := by omega
        subst hj
        simp [parse_batch])]
    simp [parse_batch, validate_schema, pyGetD, pyLookup, vsAux, List.range']

/-! ## Claim C5 -/

/-- Reduction of an `Except` bind on a success value. -/
theorem exceptBindOk {α β ε : Type} (a : α) (f : α → Except ε β) :
    (Except.ok (ε := ε) a >>= f) = f a := rfl

/-- Without a prior error, `parse_node` takes its main branch: it never
short-circuits, and it preserves the error and raw-store fields. -/
theorem parse_node_no_error (chunk_size max_retries : Nat) (d : ℚ)
    (att : Nat → Nat → Except String (Option JVal)) (st : AgentState)
    (raws : List (List Char)) (herr : st.error = none) (hrs : st.raw_store = some raws) :
    ∃ st2 calls, parse_node chunk_size max_retries d att st = .ok (st2, calls, false) ∧
      st2.error = none ∧ st2.raw_store = some raws := by
  rw [parse_node, herr, hrs]
  simp only [Option.isSome_none, Bool.false_eq_true, if_false]
  exact ⟨_, _, rfl, rfl, rfl⟩

/-- Without a prior error, `validate_node` takes one of its two main
branches (empty parsed set or real work): it never short-circuits, and it
preserves the error field. -/
theorem validate_node_no_error (chunk_size : Nat)
    (llm : Nat → List (List Char) → Except String (Option JVal)) (st : AgentState)
    (raws : List (List Char)) (herr : st.error = none) (hrs : st.raw_store = some raws) :
    ∃ st3 calls, validate_node chunk_size llm st = .ok (st3, calls, false) ∧
      st3.error = none := by
  rw [validate_node, herr, hrs]
  simp only [Option.isSome_none, Bool.false_eq_true, if_false]
  by_cases hp : st.parsed_orders.isEmpty
  · rw [if_pos hp]
    exact ⟨_, _, rfl, rfl⟩
  · rw [if_neg hp]
    exact ⟨_, _, rfl, rfl⟩

/-- C5: a failed initial fetch sets the terminal error, both downstream
stages take their short-circuit branch, the run ends with empty
parsed-order and valid-order results, and neither stage performs a model
call; when the fetch succeeds, neither stage ever takes the short-circuit
branch and the final error field stays clear — the fetch failure is the
only short-circuit condition. -/
theorem C5_fetch_fail_fast (query : String) (chunk_size max_retries : Nat) (d : ℚ)
    (fetchOut : Except String (List (List Char)))
    (att : Nat → Nat → Except String (Option JVal))
    (llm : Nat → List (List Char) → Except String (Option JVal)) :
    (∀ e, fetchOut = .error e →
      pipeline fetchOut att llm query chunk_size max_retries d =
        .ok (⟨query, none, [], [], emptyDLQ, some e⟩, (0, true), (0, true))) ∧
    (∀ raws, fetchOut = .ok raws →
      ∃ st pcalls vcalls,
        pipeline fetchOut att llm query chunk_size max_retries d =
          .ok (st, (pcalls, false), (vcalls, false)) ∧ st.error = none) := by
  constructor
  · intro e he
    subst he
    rfl
  · intro raws h
    subst h
    obtain ⟨st2, pcalls, hp, herr2, hrs2⟩ :=
      parse_node_no_error chunk_size max_retries d att
        (fetch_node (.ok raws) (initial_state query)) raws rfl rfl
    obtain ⟨st3, vcalls, hv, herr3⟩ :=
      validate_node_no_error chunk_size llm st2 raws herr2 hrs2
    refine ⟨st3, pcalls, vcalls, ?_, herr3⟩
    simp only [pipeline]
    rw [hp]
    simp only [exceptBindOk]
    rw [hv]
    rfl

/-- Witness for C5: a concrete failing fetch short-circuits the whole
run with zero model calls; a concrete successful fetch never
short-circuits. -/
theorem C5_fetch_fail_fast_witness :
    (pipeline (.error "connection refused") (fun _ _ => .ok none) (fun _ _ => .ok none)
        "Show me all orders" 25 3 1 =
      .ok (⟨"Show me all orders", none, [], [], emptyDLQ, some "connection refused"⟩,
        (0, true), (0, true))) ∧
    (∃ st pcalls vcalls,
      pipeline (.ok []) (fun _ _ => .ok none) (fun _ _ => .ok none)
          "Show me all orders" 25 3 1 =
        .ok (st, (pcalls, false), (vcalls, false)) ∧ st.error = none) :=
  ⟨(C5_fetch_fail_fast "Show me all orders" 25 3 1 (.error "connection refused")
      (fun _ _ => .ok none) (fun _ _ => .ok none)).1 "connection refused" rfl,
   (C5_fetch_fail_fast "Show me all orders" 25 3 1 (.ok [])
      (fun _ _ => .ok none) (fun _ _ => .ok none)).2 [] rfl⟩

/-! ## Claim C8 — supporting lemmas -/

/-- A literal pattern matches at the front of itself plus a remainder. -/
theorem expectLit_append (lit rest : List Char) :
    expectLit lit (lit ++ rest) = some rest := by
  induction lit with
  | nil => rfl
  | cons a as ih => simp [expectLit, ih]

/-- A one-character literal pattern consumes that character. -/
theorem expectLit_cons (c : Char) (rest : List Char) :
    expectLit [c] (c :: rest) = some rest := by
  simp [expectLit]

/-- Splitting at the first occurrence of a delimiter that is absent from
the part before it. -/
theorem splitAtChar_first {c : Char} {pre : List Char} (post : List Char)
    (h : c ∉ pre) : splitAtChar c (pre ++ c :: post) = some (pre, post) := by
  induction pre with
  | nil => simp [splitAtChar]
  | cons a as ih =>
    rw [List.mem_cons, not_or] at h
    rw [List.cons_append, splitAtChar, if_neg (fun hac => h.1 hac.symm), ih h.2]
    rfl

/-- A character failing a predicate that all list members satisfy is not
a member. -/
theorem not_mem_of_all {p : Char → Bool} {l : List Char} {c : Char}
    (h : l.all p = true) (hc : p c = false) : c ∉ l := by
  intro hm
  rw [List.all_eq_true] at h
  have := h c hm
  rw [hc] at this
  exact absurd this (by decide)

/-- A non-nil list is not `isEmpty`. -/
theorem isEmpty_false_of_ne {l : List Char} (h : l ≠ []) : l.isEmpty = false := by
  cases l with
  | nil => exact absurd rfl h
  | cons a as => rfl

/-- The digit characters are recovered by `digitVal`. -/
theorem digitVal_charOfDigit (d : Nat) (hd : d < 10) :
    digitVal (charOfDigit d) = d := by
  interval_cases d <;> decide

/-- The character of any digit value is a digit character (the rendering
falls back to `'9'` beyond 9). -/
theorem charOfDigit_isDigit (d : Nat) : (charOfDigit d).isDigit = true := by
  rcases d with _ | _ | _ | _ | _ | _ | _ | _ | _ | d <;> rfl

/-- Every character of the decimal rendering of a natural is a digit. -/
theorem all_digit_natChars (n : Nat) : (natChars n).all Char.isDigit = true := by
  rcases Nat.eq_zero_or_pos n with h0 | hpos
  · subst h0; decide
  · rw [natChars, if_neg (by omega)]
    rw [List.all_eq_true]
    intro c hc
    obtain ⟨d, hd, rfl⟩ := List.mem_map.mp hc
    exact charOfDigit_isDigit d

/-- Parsing the big-endian digit characters of a digit list computes its
value. -/
theorem foldl_digits : ∀ ds : List Nat, (∀ d ∈ ds, d < 10) →
    ((ds.reverse.map charOfDigit).foldl (fun a c => 10 * a + digitVal c) 0) =
      Nat.ofDigits 10 ds := by
  intro ds
  induction ds with
  | nil => intro _; rfl
  | cons d ds ih =>
    intro h
    rw [List.reverse_cons, List.map_append, List.foldl_append]
    rw [ih (fun x hx => h x (List.mem_cons_of_mem _ hx))]
    simp only [List.map_cons, List.map_nil, List.foldl_cons, List.foldl_nil]
    rw [digitVal_charOfDigit d (h d (List.mem_cons_self _ _)), Nat.ofDigits_cons]
    omega

/-- Round trip: parsing the decimal rendering of `n` yields `n`. -/
theorem parseNat_natChars (n : Nat) : parseNat (natChars n) = some n := by
  rcases Nat.eq_zero_or_pos n with h0 | hpos
  · subst h0; decide
  · have hall := all_digit_natChars n
    rw [natChars, if_neg (by omega)] at hall ⊢
    rw [parseNat, if_pos ⟨by
        simp only [ne_eq, List.map_eq_nil_iff, List.reverse_eq_nil_iff]
        exact Nat.digits_ne_nil_iff_ne_zero.mpr (by omega), hall⟩]
    rw [foldl_digits (Nat.digits 10 n)
      (fun d hd => Nat.digits_lt_base (by norm_num) hd)]
    rw [Nat.ofDigits_digits]

/-- Round trip: parsing the two-digit cents rendering yields the cents. -/
theorem parseNat_twoDig (c : Nat) (hc : c < 100) :
    parseNat (twoDigChars c) = some c := by
  have h1 : c / 10 < 10 := by omega
  have h2 : c % 10 < 10 := by omega
  rw [twoDigChars, parseNat,
    if_pos ⟨by simp, by
      simp [List.all_cons, charOfDigit_isDigit]⟩]
  have hv : [charOfDigit (c / 10), charOfDigit (c % 10)].foldl
      (fun a x => 10 * a + digitVal x) 0 = c := by
    simp only [List.foldl_cons, List.foldl_nil,
      digitVal_charOfDigit _ h1, digitVal_charOfDigit _ h2]
    omega
  rw [hv]

/-- No comma occurs in a rendered amount. -/
theorem comma_not_mem_amtChars (w c : Nat) : ',' ∉ amtChars w c := by
  rw [amtChars]
  intro hm
  rcases List.mem_append.mp hm with h | h
  · exact not_mem_of_all (all_digit_natChars w) (by decide) h
  · rcases List.mem_cons.mp h with h | h
    · exact absurd h (by decide)
    · rcases List.mem_cons.mp h with h | h
      · have := charOfDigit_isDigit (c / 10)
        rw [← h] at this
        exact absurd this (by decide)
      · rcases List.mem_cons.mp h with h | h
        · have := charOfDigit_isDigit (c % 10)
          rw [← h] at this
          exact absurd this (by decide)
        · exact absurd h (by simp)

/-- Parsing a rendered amount recovers the exact rational value. -/
theorem parseAmount_amtChars (w c : Nat) (hc : c < 100) :
    parseAmount (amtChars w c) = some ((w : ℚ) + (c : ℚ) / 100) := by
  have hdot : '.' ∉ natChars w := not_mem_of_all (all_digit_natChars w) (by decide)
  rw [parseAmount, amtChars, splitAtChar_first _ hdot]
  simp only [parseNat_natChars, parseNat_twoDig c hc, Option.bind_eq_bind,
    Option.some_bind]
  have hlen : (twoDigChars c).length = 2 := rfl
  rw [hlen]
  norm_num

/-- A suffix of a list is a suffix of any front-extension of it. -/
theorem sfx_app {l t : List Char} (front : List Char) (h : l <:+ t) :
    l <:+ front ++ t :=
  h.trans (List.suffix_append front t)

/-- A suffix of a list is a suffix of the list with one more leading
character. -/
theorem sfx_cons {l t : List Char} (c : Char) (h : l <:+ t) :
    l <:+ c :: t :=
  h.trans (List.suffix_cons c t)

/-- Anything that is a suffix of the `Returned=` tail is a suffix of the
whole formatted record (stated on the record's spine). -/
theorem returned_suffix (oid buyer city st2 items yn tail : List Char)
    (w cents : Nat) (hbase : tail <:+ " Returned=".toList ++ yn) :
    tail <:+ "Order ".toList ++ (oid ++ ':' ::
      (" Buyer=".toList ++ (buyer ++ ',' ::
        (" Location=".toList ++ (city ++ ',' ::
          (' ' :: (st2 ++ ',' ::
            (" Total=$".toList ++ (amtChars w cents ++ ',' ::
              (" Items: ".toList ++ (items ++ ',' ::
                (" Returned=".toList ++ yn)))))))))))) :=
  sfx_app _ (sfx_app _ (sfx_cons ':' (sfx_app _ (sfx_app _ (sfx_cons ','
    (sfx_app _ (sfx_app _ (sfx_cons ',' (sfx_cons ' ' (sfx_app _ (sfx_cons ','
    (sfx_app _ (sfx_app _ (sfx_cons ',' (sfx_app _ (sfx_app _ (sfx_cons ','
    hbase)))))))))))))))))

/-! ## Claim C8 -/

/-- C8: anchor round-trip and failure mode. For every raw record built
from the fixed input grammar — digit-run order id, comma-free buyer and
city, two upper-case state letters, `{:.2f}`-rendered total `w + cents/100`,
arbitrary items text, and a `Returned=Yes|No` flag — `extractAnchors`
recovers the order id, the state and the returned flag exactly, and the
total exactly (hence within ±0.01), keeping the source text as the
back-reference; and on a record whose `Total=$` field cannot be located by
its pattern (here misspelled `Totl=$`) it fails with an
`AnchorExtractionError` for the total. -/
theorem C8_extractAnchors_roundtrip (oid buyer city st2 items : List Char)
    (w cents : Nat) (ret : Bool)
    (hne : oid ≠ []) (hdig : oid.all Char.isDigit = true)
    (hbuyer : ',' ∉ buyer) (hcity : ',' ∉ city)
    (hst1 : st2.length = 2) (hst2 : st2.all Char.isUpper = true)
    (hcents : cents < 100) :
    extractAnchors (formatRaw oid buyer city st2 w cents items ret) =
      .ok ⟨oid, (w : ℚ) + (cents : ℚ) / 100, st2, ret,
           formatRaw oid buyer city st2 w cents items ret⟩ ∧
    extractAnchors
        ("Order 1001: Buyer=John Smith, Location=Columbus, OH, Totl=$742.10, Items: Laptop (4.2*), Returned=No".toList) =
      .error (.fieldNotFound "total") := by
  refine ⟨?_, rfl⟩
  have hE : oid.isEmpty = false := isEmpty_false_of_ne hne
  have hcolon : ':' ∉ oid := not_mem_of_all hdig (by decide)
  have hcst : ',' ∉ st2 := not_mem_of_all hst2 (by decide)
  rcases ret with _ | _
  · simp only [extractAnchors, formatRaw, Bool.false_eq_true, if_false, if_true,
      expectLit_append, expectLit_cons, splitAtChar_first, hcolon, hbuyer, hcity,
      hcst, comma_not_mem_amtChars, hE, hdig, hst1, hst2,
      parseAmount_amtChars w cents hcents, Bool.not_true, Bool.or_false, Bool.or_self,
      not_false_eq_true, ne_eq, not_true_eq_false, List.isSuffixOf_iff_suffix,
      decide_not, decide_True, decide_False, Bool.not_false]
    split
    · rename_i h1
      have hno := returned_suffix oid buyer city st2 items ("No".toList) ("Returned=No".toList) w cents
        (by decide)
      rcases List.suffix_or_suffix_of_suffix h1 hno with h | h <;>
        exact absurd h (by decide)
    · split
      · rfl
      · rename_i h2
        exact absurd (returned_suffix oid buyer city st2 items ("No".toList) ("Returned=No".toList) w cents
          (by decide)) h2
  · simp only [extractAnchors, formatRaw, Bool.false_eq_true, if_false, if_true,
      expectLit_append, expectLit_cons, splitAtChar_first, hcolon, hbuyer, hcity,
      hcst, comma_not_mem_amtChars, hE, hdig, hst1, hst2,
      parseAmount_amtChars w cents hcents, Bool.not_true, Bool.or_false, Bool.or_self,
      not_false_eq_true, ne_eq, not_true_eq_false, List.isSuffixOf_iff_suffix,
      decide_not, decide_True, decide_False, Bool.not_false]
    split
    · rfl
    · rename_i h1
      exact absurd (returned_suffix oid buyer city st2 items ("Yes".toList) ("Returned=Yes".toList) w cents
        (by decide)) h1

/-- Witness for C8 at the spec's concrete record: the grammar constraints
hold for order 1001, the formatted record is exactly the spec's example
string, and extraction recovers orderId 1001, total 742.10, state OH and
returned false. -/
theorem C8_extractAnchors_roundtrip_witness :
    ("1001".toList ≠ [] ∧ "1001".toList.all Char.isDigit = true ∧
      ',' ∉ "John Smith".toList ∧ ',' ∉ "Columbus".toList ∧
      ("OH".toList).length = 2 ∧ "OH".toList.all Char.isUpper = true ∧
      (10 : Nat) < 100) ∧
    formatRaw "1001".toList "John Smith".toList "Columbus".toList "OH".toList 742 10
        "Laptop (4.2*)".toList false =
      "Order 1001: Buyer=John Smith, Location=Columbus, OH, Total=$742.10, Items: Laptop (4.2*), Returned=No".toList ∧
    extractAnchors
        ("Order 1001: Buyer=John Smith, Location=Columbus, OH, Total=$742.10, Items: Laptop (4.2*), Returned=No".toList) =
      .ok ⟨"1001".toList, (742 : ℚ) + (10 : ℚ) / 100, "OH".toList, false,
        "Order 1001: Buyer=John Smith, Location=Columbus, OH, Total=$742.10, Items: Laptop (4.2*), Returned=No".toList⟩ := by
  have h742 : Nat.digits 10 742 = [2, 4, 7] := by
    rw [Nat.digits_def' (by norm_num : (1 : ℕ) < 10) (by norm_num)]
    rw [show (742 : ℕ) % 10 = 2 by norm_num, show (742 : ℕ) / 10 = 74 by norm_num]
    rw [Nat.digits_def' (by norm_num : (1 : ℕ) < 10) (by norm_num)]
    rw [show (74 : ℕ) % 10 = 4 by norm_num, show (74 : ℕ) / 10 = 7 by norm_num]
    rw [Nat.digits_def' (by norm_num : (1 : ℕ) < 10) (by norm_num)]
    norm_num
  have hfmt : formatRaw "1001".toList "John Smith".toList "Columbus".toList
      "OH".toList 742 10 "Laptop (4.2*)".toList false =
      "Order 1001: Buyer=John Smith, Location=Columbus, OH, Total=$742.10, Items: Laptop (4.2*), Returned=No".toList := by
    rw [formatRaw, amtChars, natChars, if_neg (by norm_num), h742]
    rfl
  refine ⟨by decide, hfmt, ?_⟩
  rw [← hfmt]
  rw [(C8_extractAnchors_roundtrip "1001".toList "John Smith".toList "Columbus".toList
    "OH".toList "Laptop (4.2*)".toList 742 10 false (by decide) (by decide) (by decide)
    (by decide) (by decide) (by decide) (by norm_num)).1, hfmt]
  norm_num
